import Mathlib

/-!
Shallow embedding of `hmdriver2/_xpath.py`: the hierarchy normalizer
(`_XPath._sanitize_text`, `_XPath._json2xml`), the locator (`_XPath.__call__`)
and the element handle (`_XMLElement`), together with theorems settling the
specification claims about them.

Modelling conventions:
* A hierarchy snapshot (the JSON dict returned by `Driver.dump_hierarchy`) is a
  tree with an attribute association list and an ordered child list.  Attribute
  values are the strings produced by Python's `str(v)` coercion (which is total),
  so they are modelled directly as `String`.
* An lxml `etree.Element` is modelled as a tree node with a tag, an attribute
  association list, an optional inner text and an ordered child list.
* Python exceptions are modelled with `Except`; driver side effects are modelled
  as an explicit list of recorded driver calls.
* The XPath evaluator is an external library (lxml); it is modelled as an
  arbitrary function from the tree and the expression string to the result list
  in the evaluator's document order.
-/

/-- A hierarchy snapshot node: `{"attributes": {...}, "children": [...]}`. -/
inductive HierarchySnapshot where
  | mk (attributes : List (String × String)) (children : List HierarchySnapshot)
deriving Repr

def HierarchySnapshot.attributes : HierarchySnapshot → List (String × String)
  | .mk a _ => a

def HierarchySnapshot.children : HierarchySnapshot → List HierarchySnapshot
  | .mk _ c => c

/-- An lxml `etree.Element` as built by `_json2xml`: tag, attributes, optional
inner text, ordered children. -/
inductive XMLNode where
  | mk (tag : String) (attrib : List (String × String)) (text : Option String)
      (children : List XMLNode)
deriving Repr

def XMLNode.tag : XMLNode → String
  | .mk t _ _ _ => t

def XMLNode.attrib : XMLNode → List (String × String)
  | .mk _ a _ _ => a

def XMLNode.text : XMLNode → Option String
  | .mk _ _ t _ => t

def XMLNode.children : XMLNode → List XMLNode
  | .mk _ _ _ c => c

/-- A character removed by `_sanitize_text`: the ranges `\x00-\x1F` and `\x7F`
of the regex `[\x00-\x1F\x7F]`. -/
def isIllegalChar (c : Char) : Bool :=
  c.toNat ≤ 0x1F || c.toNat == 0x7F

/-- `_XPath._sanitize_text`: `re.sub(r'[\x00-\x1F\x7F]', '', text)` removes the
XML-incompatible control characters from the string. -/
def sanitize_text (text : String) : String :=
  ⟨text.data.filter (fun c => !(isIllegalChar c))⟩

mutual

/-- `_XPath._json2xml`: convert the JSON-like hierarchy to an XML tree.
Every attribute value is sanitized; the tag is
`cleaned_attributes.get("type", "orgRoot") or "orgRoot"`; children are
converted recursively, in order.  A fresh `etree.Element` has inner text
`None`. -/
def json2xml : HierarchySnapshot → XMLNode
  | .mk attributes children =>
    let cleaned_attributes := attributes.map (fun kv => (kv.1, sanitize_text kv.2))
    let tag0 := (cleaned_attributes.lookup "type").getD "orgRoot"
    let tag := if tag0 = "" then "orgRoot" else tag0
    .mk tag cleaned_attributes none (json2xmlChildren children)

/-- The `for item in children: xml.append(...)` loop of `_json2xml`: convert
the child snapshots in order. -/
def json2xmlChildren : List HierarchySnapshot → List XMLNode
  | [] => []
  | h :: t => json2xml h :: json2xmlChildren t

end

/-- Modelled from the spec: `proto.Bounds` (the file `proto.py` is not in the
sources), a rectangle with integer top-left and bottom-right coordinates parsed
from `[x1,y1][x2,y2]`. -/
structure Bounds where
  x1 : Nat
  y1 : Nat
  x2 : Nat
  y2 : Nat
deriving Repr, DecidableEq

/-- Modelled from the spec: `Bounds.get_center` (the file `proto.py` is not in
the sources) derives "a center point = midpoint of the rectangle"; the spec's
test vector is `[10,20][30,60] -> (20, 40)`. -/
def Bounds.get_center (b : Bounds) : Nat × Nat :=
  ((b.x1 + b.x2) / 2, (b.y1 + b.y2) / 2)

/-- Consume a maximal non-empty run of decimal digits from the front of the
character list, returning its value and the rest. -/
def readNat (cs : List Char) : Option (Nat × List Char) :=
  let p := cs.span Char.isDigit
  if p.1 = [] then none
  else some (p.1.foldl (fun a c => a * 10 + (c.toNat - 48)) 0, p.2)

/-- Consume one expected literal character. -/
def expectChar (c : Char) : List Char → Option (List Char)
  | [] => none
  | x :: xs => if x = c then some xs else none

/-- Modelled from the spec: `utils.parse_bounds` (the file `utils.py` is not in
the sources).  Parses the fixed wire format `[x1,y1][x2,y2]` with integer
coordinates, top-left then bottom-right; "any other format fails bounds
parsing (treated as 'no usable match')", and an absent attribute (`None`)
likewise yields no bounds. -/
def parse_bounds : Option String → Option Bounds
  | none => none
  | some s => do
    let r ← expectChar '[' s.data
    let (x1, r) ← readNat r
    let r ← expectChar ',' r
    let (y1, r) ← readNat r
    let r ← expectChar ']' r
    let r ← expectChar '[' r
    let (x2, r) ← readNat r
    let r ← expectChar ',' r
    let (y2, r) ← readNat r
    let r ← expectChar ']' r
    if r = [] then pure ⟨x1, y1, x2, y2⟩ else none

/-- The exceptions the module raises: `RuntimeError("hierarchy is empty")` in
`_XPath.__call__` and `XmlElementNotFoundError("xpath not found")` in
`_XMLElement._verify`. -/
inductive XPathError where
  | emptyHierarchy
  | elementNotFound
deriving Repr, DecidableEq

/-- A coordinate-based call forwarded to the `Driver` collaborator. -/
inductive DriverCall where
  | dumpHierarchy
  | click (x y : Nat)
  | doubleClick (x y : Nat)
  | longClick (x y : Nat)
  | inputText (text : String)
deriving Repr, DecidableEq

/-- `_XMLElement.__init__`: the element handle stores the (optional) bounds,
the matched node's attributes (`attrib_info`, `{}` until `setattr` fills it)
and the back-reference to the matched node (`_xml_node`, `None` until
`setattr` fills it).  The driver back-reference is modelled by recording
forwarded calls instead. -/
structure XMLElement where
  bounds : Option Bounds
  attrib_info : List (String × String)
  xml_node : Option XMLNode
deriving Repr

/-- `_XMLElement.exists`: `self.bounds is not None`. -/
def XMLElement.existsb (e : XMLElement) : Bool :=
  e.bounds.isSome

/-- `_XMLElement._verify` followed by the read in `center`:
raise `XmlElementNotFoundError` when there are no bounds, otherwise return
`self.bounds.get_center()`.  (`not self.bounds` on a `Bounds` value is `False`:
`Bounds` defines no truthiness of its own, so only `None` is falsy.) -/
def XMLElement.center (e : XMLElement) : Except XPathError (Nat × Nat) :=
  match e.bounds with
  | none => .error .elementNotFound
  | some b => .ok b.get_center

/-- Python's `str.strip()` with no argument: drop whitespace from both ends. -/
def pyStrip (s : String) : String :=
  ⟨((s.data.dropWhile Char.isWhitespace).reverse.dropWhile Char.isWhitespace).reverse⟩

/-- `_XMLElement.get_text`: return `""` (with a logged warning) when the
element does not exist; else the stripped `text` attribute when non-empty;
else, when the XML node back-reference is present, the node's inner text
(`None` coerced to `""`) stripped — a failure reading it is logged and falls
through to `""`; else `""`. -/
def XMLElement.get_text (e : XMLElement) : String :=
  if !e.existsb then ""
  else
    let text := (pyStrip ((e.attrib_info.lookup "text").getD ""))
    if text ≠ "" then text
    else
      match e.xml_node with
      | some node => pyStrip (node.text.getD "")
      | none => ""

/-- `_XMLElement.info`: return `attrib_info` when the attribute exists
(`__init__` always sets it, so `hasattr` is always true) and `{}` otherwise. -/
def XMLElement.info (e : XMLElement) : List (String × String) :=
  e.attrib_info

/-- The effective `_XMLElement.text` property: the class body defines `text`
twice, and in Python the second definition (the later class-body binding)
overrides the first, so the property in force is `self.info.get("text")` —
a raw attribute read with no trimming and no inner-text fallback, `None`
when the key is absent. -/
def XMLElement.text_property (e : XMLElement) : Option String :=
  (e.info).lookup "text"

/-- The shadowed first definition of the `_XMLElement.text` property, which
delegated to `get_text()`.  Kept only to state how the effective property
diverges from it. -/
def XMLElement.text_property_first (e : XMLElement) : String :=
  e.get_text

/-- `_XMLElement.click`: read `self.center` (which verifies existence and may
raise `XmlElementNotFoundError`) and forward one `click(x, y)` to the driver.
The result pairs the outcome with the list of driver calls performed. -/
def XMLElement.click (e : XMLElement) : Except XPathError Unit × List DriverCall :=
  match e.center with
  | .error err => (.error err, [])
  | .ok c => (.ok (), [.click c.1 c.2])

/-- `_XMLElement.click_if_exists`: return (logging a debug line, no driver
call) when the element does not exist; otherwise read the center and forward
one `click(x, y)` to the driver. -/
def XMLElement.click_if_exists (e : XMLElement) : Except XPathError Unit × List DriverCall :=
  if !e.existsb then (.ok (), [])
  else
    match e.center with
    | .error err => (.error err, [])
    | .ok c => (.ok (), [.click c.1 c.2])

/-- An XPath evaluator: lxml's `xml.xpath(expr)`, an external library, modelled
as an arbitrary function from the tree and the expression to the list of
matching nodes in the evaluator's document order. -/
def XPathEvaluator : Type :=
  XMLNode → String → List XMLNode

/-- `_XPath.__call__`, given the outcome of `self._d.dump_hierarchy()`
(`none` models an empty or absent snapshot, for which `not hierarchy` is
true) and the external XPath evaluator.  Returns the element or the raised
exception, together with the list of driver calls performed. -/
def xpathCall (hierarchy : Option HierarchySnapshot) (eval : XPathEvaluator)
    (xpath : String) : Except XPathError XMLElement × List DriverCall :=
  match hierarchy with
  | none => (.error .emptyHierarchy, [.dumpHierarchy])
  | some h =>
    let xml := json2xml h
    let result := eval xml xpath
    match result with
    | [] => (.ok ⟨none, [], none⟩, [.dumpHierarchy])
    | node :: _ =>
      let raw_bounds := node.attrib.lookup "bounds"
      let bounds := parse_bounds raw_bounds
      (.ok ⟨bounds, node.attrib, some node⟩, [.dumpHierarchy])

/-! Concrete inputs used by witnesses and counterexamples. -/

/-- A snapshot with a well-formed `bounds` attribute. -/
def snapButton : HierarchySnapshot :=
  .mk [("type", "Button"), ("text", "  Hi  "), ("bounds", "[10,20][30,60]")] []

/-- A snapshot whose node has a `text` attribute but no `bounds` attribute. -/
def snapNoBounds : HierarchySnapshot :=
  .mk [("type", "Text"), ("text", " Hi ")] []

/-- An evaluator that matches nothing. -/
def evalNil : XPathEvaluator := fun _ _ => []

/-- An evaluator whose single match is the tree root. -/
def evalRoot : XPathEvaluator := fun x _ => [x]

/-- A bound element whose `text` attribute is `"  Hi  "`. -/
def elemHi : XMLElement :=
  ⟨some ⟨10, 20, 30, 60⟩, [("text", "  Hi  ")], some (.mk "Button" [] (some " inner ") [])⟩

/-- A bound element with an empty `text` attribute and inner text `" Bye "`. -/
def elemBye : XMLElement :=
  ⟨some ⟨10, 20, 30, 60⟩, [("text", "")], some (.mk "Text" [] (some " Bye ") [])⟩

/-- The unbound element produced when the query matches nothing. -/
def elemUnbound : XMLElement := ⟨none, [], none⟩

/-- A bound element with no attributes and no node back-reference. -/
def elemNoNode : XMLElement := ⟨some ⟨0, 0, 2, 2⟩, [], none⟩

/-- A string free of the control characters `U+0000`–`U+001F` and `U+007F`. -/
def noIllegal (s : String) : Prop :=
  ∀ c ∈ s.data, ¬(c.toNat ≤ 0x1F ∨ c.toNat = 0x7F)

/-- Every node of the tree has only control-character-free attribute values. -/
inductive AttrsClean : XMLNode → Prop where
  | mk : ∀ (x : XMLNode),
      (∀ kv ∈ x.attrib, noIllegal kv.2) →
      (∀ c ∈ x.children, AttrsClean c) →
      AttrsClean x

/-- Structural isomorphism between a snapshot and a tree node: corresponding
children, one-to-one, in the same order, at every depth. -/
inductive StructIso : HierarchySnapshot → XMLNode → Prop where
  | mk : ∀ (a : List (String × String)) (hc : List HierarchySnapshot) (x : XMLNode),
      List.Forall₂ StructIso hc x.children → StructIso (.mk a hc) x

/-! Theorems for the claims. -/

/-- Claim C1: for every XPath expression whose evaluation against the normalized
tree yields zero matches, `_XPath.__call__` returns (does not raise) an
element with `exists() == false` and an empty attribute mapping, and reading
`center` on that element raises `XmlElementNotFoundError`. -/
theorem C1_locate_no_match (h : HierarchySnapshot) (eval : XPathEvaluator)
    (xp : String) (hempty : eval (json2xml h) xp = []) :
    ∃ e : XMLElement, (xpathCall (some h) eval xp).1 = .ok e ∧
      e.existsb = false ∧ e.attrib_info = [] ∧
      e.center = .error .elementNotFound := by
  refine ⟨⟨none, [], none⟩, ?_, rfl, rfl, rfl⟩
  simp [xpathCall, hempty]

/-- Witness for C1 at a concrete snapshot and the evaluator with no matches. -/
theorem C1_witness :
    evalNil (json2xml snapButton) "//missing" = [] ∧
    ∃ e : XMLElement, (xpathCall (some snapButton) evalNil "//missing").1 = .ok e ∧
      e.existsb = false ∧ e.attrib_info = [] ∧
      e.center = .error .elementNotFound :=
  ⟨rfl, C1_locate_no_match snapButton evalNil "//missing" rfl⟩

/-- Claim C2: for every XPath expression whose evaluation yields one or more
matches, `_XPath.__call__` selects exactly the first result in the
evaluator's document order, parses that node's `bounds` attribute into the
element's bounds, and stores that node's (sanitized) attribute mapping on the
element. -/
theorem C2_locate_first_match (h : HierarchySnapshot) (eval : XPathEvaluator)
    (xp : String) (node : XMLNode) (rest : List XMLNode)
    (hres : eval (json2xml h) xp = node :: rest) :
    (xpathCall (some h) eval xp).1 =
      .ok ⟨parse_bounds (node.attrib.lookup "bounds"), node.attrib, some node⟩ := by
  simp [xpathCall, hres]

/-- Witness for C2 at a concrete snapshot whose root is the single match;
the parsed bounds value is spelt out. -/
theorem C2_witness :
    evalRoot (json2xml snapButton) "//Button" = json2xml snapButton :: [] ∧
    (xpathCall (some snapButton) evalRoot "//Button").1 =
      .ok ⟨parse_bounds ((json2xml snapButton).attrib.lookup "bounds"),
        (json2xml snapButton).attrib, some (json2xml snapButton)⟩ ∧
    parse_bounds ((json2xml snapButton).attrib.lookup "bounds") =
      some ⟨10, 20, 30, 60⟩ :=
  ⟨rfl, C2_locate_first_match snapButton evalRoot "//Button"
    (json2xml snapButton) [] rfl, by decide⟩

/-- Claim C8: when the driver returns an empty or absent hierarchy snapshot,
`_XPath.__call__` fails with `RuntimeError("hierarchy is empty")` for every
possible evaluator (so the normalizer and the evaluator are never consulted),
and the only driver call performed is the single `dump_hierarchy`. -/
theorem C8_empty_hierarchy (eval : XPathEvaluator) (xp : String) :
    (xpathCall none eval xp).1 = .error .emptyHierarchy ∧
    (xpathCall none eval xp).2 = [.dumpHierarchy] :=
  ⟨rfl, rfl⟩

theorem sanitize_text_noIllegal (s : String) : noIllegal (sanitize_text s) := by
  intro c hc
  have hmem : c ∈ s.data.filter (fun c => !(isIllegalChar c)) := hc
  rw [List.mem_filter] at hmem
  have hp := hmem.2
  simp only [isIllegalChar, Bool.not_eq_true', Bool.or_eq_false_iff,
    decide_eq_false_iff_not, beq_eq_false_iff_ne, ne_eq] at hp
  omega

theorem json2xml_attrib_eq (a : List (String × String)) (c : List HierarchySnapshot) :
    (json2xml (.mk a c)).attrib = a.map (fun kv => (kv.1, sanitize_text kv.2)) := rfl

theorem json2xml_children_eq (a : List (String × String)) (c : List HierarchySnapshot) :
    (json2xml (.mk a c)).children = json2xmlChildren c := rfl

mutual

theorem json2xml_clean : ∀ (h : HierarchySnapshot), AttrsClean (json2xml h)
  | .mk attributes children => by
    refine AttrsClean.mk _ ?_ ?_
    · intro kv hkv
      rw [json2xml_attrib_eq] at hkv
      obtain ⟨kv', _, rfl⟩ := List.mem_map.1 hkv
      exact sanitize_text_noIllegal kv'.2
    · intro c hc
      rw [json2xml_children_eq] at hc
      exact json2xmlChildren_clean children c hc

theorem json2xmlChildren_clean :
    ∀ (l : List HierarchySnapshot), ∀ c ∈ json2xmlChildren l, AttrsClean c
  | [], c, hc => by simp [json2xmlChildren] at hc
  | h :: t, c, hc => by
    simp only [json2xmlChildren, List.mem_cons] at hc
    cases hc with
    | inl h' => exact h' ▸ json2xml_clean h
    | inr h' => exact json2xmlChildren_clean t c h'

end

theorem sanitize_text_idem (s : String) :
    sanitize_text (sanitize_text s) = sanitize_text s := by
  unfold sanitize_text
  congr 1
  rw [List.filter_filter]
  simp

/-- Claim C4: for every hierarchy snapshot, every attribute value in the tree
produced by `_json2xml` contains no character in `U+0000`–`U+001F` or
`U+007F`, and `_sanitize_text` is idempotent. -/
theorem C4_sanitization :
    (∀ h : HierarchySnapshot, AttrsClean (json2xml h)) ∧
    (∀ s : String, sanitize_text (sanitize_text s) = sanitize_text s) :=
  ⟨json2xml_clean, sanitize_text_idem⟩

theorem lookup_map_sanitize (key : String) (l : List (String × String)) :
    (l.map (fun kv => (kv.1, sanitize_text kv.2))).lookup key =
      (l.lookup key).map sanitize_text := by
  induction l with
  | nil => rfl
  | cons kv t ih =>
    cases kv with
    | mk k v =>
      cases hk : key == k with
      | true => simp [List.lookup, hk]
      | false => simp [List.lookup, hk, ih]

/-- Claim C5: for every snapshot node, the normalized node's tag equals the
sanitized value of the node's `type` attribute when that attribute is present
and non-empty after sanitization; otherwise the tag equals the fixed root
sentinel tag `"orgRoot"`. -/
theorem C5_tag (h : HierarchySnapshot) :
    (json2xml h).tag =
      match h.attributes.lookup "type" with
      | some v => if sanitize_text v = "" then "orgRoot" else sanitize_text v
      | none => "orgRoot" := by
  cases h with
  | mk attributes children =>
    have htag : (json2xml (.mk attributes children)).tag =
        (if ((attributes.map (fun kv => (kv.1, sanitize_text kv.2))).lookup
              "type").getD "orgRoot" = ""
         then "orgRoot"
         else ((attributes.map (fun kv => (kv.1, sanitize_text kv.2))).lookup
              "type").getD "orgRoot") := rfl
    rw [htag, lookup_map_sanitize]
    cases hl : attributes.lookup "type" with
    | none => simp [HierarchySnapshot.attributes, hl]
    | some v => simp [HierarchySnapshot.attributes, hl]

mutual

theorem json2xml_iso : ∀ (h : HierarchySnapshot), StructIso h (json2xml h)
  | .mk a c =>
    StructIso.mk a c _ (by rw [json2xml_children_eq]; exact json2xmlChildren_iso c)

theorem json2xmlChildren_iso :
    ∀ (l : List HierarchySnapshot), List.Forall₂ StructIso l (json2xmlChildren l)
  | [] => List.Forall₂.nil
  | h :: t => List.Forall₂.cons (json2xml_iso h) (json2xmlChildren_iso t)

end

theorem json2xmlChildren_eq_map :
    ∀ l : List HierarchySnapshot, json2xmlChildren l = l.map json2xml
  | [] => rfl
  | h :: t => by
    simp only [json2xmlChildren, List.map_cons]
    exact congrArg _ (json2xmlChildren_eq_map t)

/-- Claim C6: for every hierarchy snapshot, the normalized tree is structurally
isomorphic to the input — one child per child snapshot, in the same order, at
every depth — and concretely the root's child list is the in-order image of
the input's child list under `_json2xml`. -/
theorem C6_isomorphic (h : HierarchySnapshot) :
    StructIso h (json2xml h) ∧ (json2xml h).children = h.children.map json2xml := by
  refine ⟨json2xml_iso h, ?_⟩
  cases h with
  | mk a c =>
    rw [json2xml_children_eq]
    exact json2xmlChildren_eq_map c

/-- Claim C7: `get_text` never raises (it is a total function) and resolves text in
priority order — an unbound element yields `""`; else a non-empty stripped
`text` attribute wins; else, with a node back-reference, the node's inner text
stripped; else `""`. -/
theorem C7_get_text (e : XMLElement) :
    (e.existsb = false → e.get_text = "") ∧
    (∀ t : String, e.existsb = true →
      pyStrip ((e.attrib_info.lookup "text").getD "") = t → t ≠ "" →
      e.get_text = t) ∧
    (∀ n : XMLNode, e.existsb = true →
      pyStrip ((e.attrib_info.lookup "text").getD "") = "" → e.xml_node = some n →
      e.get_text = pyStrip (n.text.getD "")) ∧
    (e.existsb = true → pyStrip ((e.attrib_info.lookup "text").getD "") = "" →
      e.xml_node = none → e.get_text = "") := by
  refine ⟨?_, ?_, ?_, ?_⟩
  · intro hex
    simp [XMLElement.get_text, hex]
  · intro t hex ht hne
    simp [XMLElement.get_text, hex, ht, hne]
  · intro n hex ht hn
    simp [XMLElement.get_text, hex, ht, hn]
  · intro hex ht hn
    simp [XMLElement.get_text, hex, ht, hn]

/-- Witness for C7: the spec's three test vectors, plus the no-back-reference
case, at concrete elements. -/
theorem C7_get_text_witness :
    elemHi.get_text = "Hi" ∧ elemBye.get_text = "Bye" ∧
    elemUnbound.get_text = "" ∧ elemNoNode.get_text = "" :=
  ⟨(C7_get_text elemHi).2.1 "Hi" rfl rfl (by decide),
   (C7_get_text elemBye).2.2.1 (.mk "Text" [] (some " Bye ") []) rfl rfl rfl,
   (C7_get_text elemUnbound).1 rfl,
   (C7_get_text elemNoNode).2.2.2 rfl rfl rfl⟩

/-- Claim C9: `click` on an unbound element raises `XmlElementNotFoundError` with
zero driver calls, while `click_if_exists` performs zero driver calls and does
not raise; on a bound element both forward exactly one `click` at the center's
x/y coordinates. -/
theorem C9_click (e : XMLElement) :
    (e.bounds = none →
      e.click = (.error .elementNotFound, []) ∧
      e.click_if_exists = (.ok (), [])) ∧
    (∀ b : Bounds, e.bounds = some b →
      e.click = (.ok (), [.click b.get_center.1 b.get_center.2]) ∧
      e.click_if_exists = (.ok (), [.click b.get_center.1 b.get_center.2])) := by
  refine ⟨?_, ?_⟩
  · intro hb
    refine ⟨?_, ?_⟩ <;>
      simp [XMLElement.click, XMLElement.click_if_exists, XMLElement.center,
        XMLElement.existsb, hb]
  · intro b hb
    refine ⟨?_, ?_⟩ <;>
      simp [XMLElement.click, XMLElement.click_if_exists, XMLElement.center,
        XMLElement.existsb, hb]

/-- Witness for C9 at the unbound element and a bound one with center
`(20, 40)`. -/
theorem C9_click_witness :
    elemUnbound.click = (.error .elementNotFound, []) ∧
    elemUnbound.click_if_exists = (.ok (), []) ∧
    elemHi.click = (.ok (), [.click 20 40]) ∧
    elemHi.click_if_exists = (.ok (), [.click 20 40]) :=
  ⟨((C9_click elemUnbound).1 rfl).1, ((C9_click elemUnbound).1 rfl).2,
   ((C9_click elemHi).2 ⟨10, 20, 30, 60⟩ rfl).1,
   ((C9_click elemHi).2 ⟨10, 20, 30, 60⟩ rfl).2⟩

/-- Counterexample to C3: a matched node with no `bounds` attribute yields an
element whose `bounds` is `None` (no usable match) yet whose attribute mapping
is the matched node's non-empty mapping, contradicting "whenever bounds is
None the Element's attribute mapping is empty". -/
theorem C3_counterexample :
    (xpathCall (some snapNoBounds) evalRoot "//Text").1 =
      .ok ⟨none, [("type", "Text"), ("text", " Hi ")], some (json2xml snapNoBounds)⟩ ∧
    XMLElement.bounds
      ⟨none, [("type", "Text"), ("text", " Hi ")], some (json2xml snapNoBounds)⟩ = none ∧
    XMLElement.attrib_info
      ⟨none, [("type", "Text"), ("text", " Hi ")], some (json2xml snapNoBounds)⟩ ≠ [] :=
  ⟨rfl, rfl, by decide⟩

/-- Claim C3 as amended: for every element returned by the locator, `bounds` is
non-None iff a query match was found and its `bounds` attribute parsed
successfully; the attribute mapping is empty whenever the query found no
match; but an element built from a matched node carries that node's attribute
mapping even when its `bounds` attribute is absent or unparseable. -/
theorem C3_bounds_iff (h : HierarchySnapshot) (eval : XPathEvaluator)
    (xp : String) (e : XMLElement)
    (he : (xpathCall (some h) eval xp).1 = .ok e) :
    (e.bounds.isSome = true ↔
      match eval (json2xml h) xp with
      | [] => False
      | node :: _ => (parse_bounds (node.attrib.lookup "bounds")).isSome = true) ∧
    (eval (json2xml h) xp = [] → e.attrib_info = []) ∧
    (∀ node rest, eval (json2xml h) xp = node :: rest →
      e.attrib_info = node.attrib) := by
  cases hres : eval (json2xml h) xp with
  | nil =>
    simp only [xpathCall, hres] at he
    rw [Except.ok.injEq] at he
    subst he
    refine ⟨by simp, fun _ => rfl, ?_⟩
    intro node rest h'
    exact absurd h' (by simp)
  | cons node rest =>
    simp only [xpathCall, hres] at he
    rw [Except.ok.injEq] at he
    subst he
    refine ⟨by simp, ?_, ?_⟩
    · intro h'
      exact absurd h' (by simp)
    · intro node' rest' h'
      cases h'
      rfl

/-- Witness for the amended C3 at a concrete snapshot whose single match has
a well-formed `bounds` attribute. -/
theorem C3_bounds_iff_witness :
    (XMLElement.bounds ⟨some ⟨10, 20, 30, 60⟩, (json2xml snapButton).attrib,
        some (json2xml snapButton)⟩).isSome = true := by
  have h := C3_bounds_iff snapButton evalRoot "//Button"
      ⟨some ⟨10, 20, 30, 60⟩, (json2xml snapButton).attrib,
        some (json2xml snapButton)⟩ rfl
  exact h.1.mpr (show (parse_bounds
    ((json2xml snapButton).attrib.lookup "bounds")).isSome = true by decide)

/-- Counterexample to C10: an unbound element (bounds `None`) built from a
matched node that carried a `text` attribute: its `text` property returns that
raw value, not a null value, contradicting "returns a null value when the
Element is unbound". -/
theorem C10_counterexample :
    (xpathCall (some snapNoBounds) evalRoot "//Text").1 =
      .ok ⟨none, [("type", "Text"), ("text", " Hi ")], some (json2xml snapNoBounds)⟩ ∧
    XMLElement.existsb
      ⟨none, [("type", "Text"), ("text", " Hi ")], some (json2xml snapNoBounds)⟩ = false ∧
    XMLElement.text_property
      ⟨none, [("type", "Text"), ("text", " Hi ")], some (json2xml snapNoBounds)⟩ =
      some " Hi " :=
  ⟨rfl, rfl, rfl⟩

/-- Claim C10 as amended: the public `text` property in force is the second class
body definition (which overrides the first): the raw attribute-map read
through `info`, with no trimming and no inner-text fallback; it returns a
null value exactly when the `text` key is absent from the stored attribute
mapping (in particular on the no-match unbound element, whose mapping is
empty), and diverges from `get_text`'s three-tier policy. -/
theorem C10_text_property :
    (∀ e : XMLElement, e.text_property = e.info.lookup "text") ∧
    (∀ e : XMLElement,
      e.text_property = none ↔ e.attrib_info.lookup "text" = none) ∧
    XMLElement.text_property ⟨none, [], none⟩ = none ∧
    (elemHi.text_property = some "  Hi  " ∧ elemHi.get_text = "Hi" ∧
      elemHi.text_property ≠ some elemHi.get_text) :=
  ⟨fun _ => rfl, fun _ => Iff.rfl, rfl, rfl, rfl, by decide⟩
